import Mathlib

/-!
Verification of the CTV payment-pool repository (`op_ctv_payment_pool`).

The repository builds a tree-structured Bitcoin covenant pool: N users fund a
single taproot output, and pre-committed CTV template hashes allow the users to
exit one at a time. The files under `src/` in the repository are `main.rs`
(configuration checks, pool construction orchestration, the settlement loop)
and `rpc_helper.rs` (the funding transaction and the pool-funding PSBT
simulation). The modules `config`, `ctv_scripts` and `pools` are referenced by
`main.rs` but their sources are not part of the repository snapshot; where a
property depends on them, the corresponding definitions here are modelled from
the specification and marked as such in their doc comments.

Conventions of the embedding: satoshi amounts are `Nat` (the Rust `Amount` is
an unsigned 64-bit satoshi count whose checked arithmetic panics on underflow,
which we model explicitly where it matters); transaction ids and script
pubkeys are abstract `Nat` identifiers; fallible RPC interactions are oracles
of `Option` fields, and a Rust `unwrap`/`panic!` is the `fatal` outcome while
a propagated `Result` error (the `?` operator) is the `err` outcome.
-/

namespace CtvPool

/-- Configuration constants of the pool, from the `config` module: the number
of participants (`POOL_USERS`), the equal per-user deposit (`AMOUNT_PER_USER`),
the fixed fee (`FEE_AMOUNT`), the dust threshold (`DUST_AMOUNT`) and the
transaction version constant (`TX_VERSION`). Passed explicitly, as the spec's
design notes require, so properties quantify over all configurations. -/
structure Config where
  poolUsers : Nat
  amountPerUser : Nat
  feeAmount : Nat
  dustAmount : Nat
  txVersion : Int
deriving DecidableEq, Repr

/-- Sequence-number constant `Sequence::ENABLE_RBF_NO_LOCKTIME` (0xFFFFFFFD),
attached to every input built in `rpc_helper.rs`. -/
def ENABLE_RBF_NO_LOCKTIME : Nat := 4294967293

/-- Reference to a transaction output: `bitcoin::OutPoint`. -/
structure OutPoint where
  txid : Nat
  vout : Nat
deriving DecidableEq, Repr

/-- Transaction input: `bitcoin::TxIn`, reduced to the fields the program
sets (previous output and sequence number). -/
structure TxIn where
  previousOutput : OutPoint
  sequence : Nat
deriving DecidableEq, Repr

/-- Transaction output: `bitcoin::TxOut` with the script pubkey abstracted to
an identifier. -/
structure TxOut where
  value : Nat
  scriptPubkey : Nat
deriving DecidableEq, Repr

/-- Transaction: `bitcoin::Transaction` over the abstracted inputs/outputs. -/
structure Transaction where
  version : Int
  lockTime : Nat
  input : List TxIn
  output : List TxOut
deriving DecidableEq, Repr

/-- Outcome of a fallible step of the program. `ok` is a normal return,
`fatal` is a Rust panic (an `unwrap` on a failed RPC call, a `panic!`, or a
checked-arithmetic abort) — abrupt termination — and `err` is an explicit
error value propagated with the `?` operator. -/
inductive Outcome (α : Type) where
  | ok : α → Outcome α
  | fatal : String → Outcome α
  | err : String → Outcome α
deriving DecidableEq, Repr

/-- Total value of the pool: `AMOUNT_PER_USER * POOL_USERS`. -/
def pool_total (cfg : Config) : Nat :=
  cfg.amountPerUser * cfg.poolUsers

/-- Configuration validation at the top of `main` (main.rs lines 21-27):
fewer than 3 users, or a per-user amount at most `FEE_AMOUNT + DUST_AMOUNT`,
panics before anything else runs. -/
def validate_pool_config (cfg : Config) : Outcome Unit :=
  if cfg.poolUsers < 3 then
    Outcome.fatal "Pool must have at least 3 users"
  else if cfg.amountPerUser ≤ cfg.feeAmount + cfg.dustAmount then
    Outcome.fatal "Amount per user must be more than the FEE_AMOUNT + DUST_AMOUNT const"
  else
    Outcome.ok ()

/-- Pool-construction phase of `main`, sequenced after the configuration
checks: the tree layers (each layer a finite map from exit path to taproot
spend info, both abstracted to identifiers) are built only when validation
passes, so a rejected configuration produces no pool node. The layer builder
is a parameter because the `pools` module is not in the snapshot. -/
def main_construct_pools (cfg : Config)
    (buildLayers : Config → List (List (List Nat × Nat))) :
    Outcome (List (List (List Nat × Nat))) :=
  match validate_pool_config cfg with
  | Outcome.ok _ => Outcome.ok (buildLayers cfg)
  | Outcome.fatal m => Outcome.fatal m
  | Outcome.err m => Outcome.err m

/-- Settlement loop of `main` (main.rs lines 128-144): starting from the pool
funding txid, iterate `for i in 0..=(POOL_USERS - 2)`, each iteration calling
the resolver (`process_pool_spend`) with the current txid and replacing it
with the returned one. The second component records, in order, each call made
as (participant index, txid consumed by that call). -/
def settlement_loop (poolUsers : Nat) (resolver : Nat → Nat → Nat)
    (fundingTxid : Nat) : Nat × List (Nat × Nat) :=
  (List.range (poolUsers - 1)).foldl
    (fun acc i => (resolver i acc.1, acc.2 ++ [(i, acc.1)]))
    (fundingTxid, [])

/-- Chained txid after k resolver steps: step k consumes the txid produced by
step k-1, the first consumes the funding txid. -/
def chain_txid (resolver : Nat → Nat → Nat) (fundingTxid : Nat) : Nat → Nat
  | 0 => fundingTxid
  | k + 1 => resolver k (chain_txid resolver fundingTxid k)

/-- Root-layer map built in `main` (main.rs lines 99-102): a fresh `HashMap`
holding the single entry inserted by `pool_0_map.insert(vec![0], ...)`. -/
def pool_root_layer (spendInfo : Nat) : List (List Nat × Nat) :=
  [([0], spendInfo)]

/-- Amount argument handed by `main` to `create_entry_pool_withdraw_hashes`
(main.rs line 97): `AMOUNT_PER_USER * (POOL_USERS - 1)`. -/
def entry_pool_amount_arg (cfg : Config) : Nat :=
  cfg.amountPerUser * (cfg.poolUsers - 1)

/-- Wallet UTXO as returned by `list_unspent`, reduced to the fields
`send_funding_transaction` reads. -/
structure Utxo where
  txid : Nat
  vout : Nat
  amount : Nat
deriving DecidableEq, Repr

/-- Guard expression `change < Amount::ZERO` from `send_funding_transaction`
(rpc_helper.rs line 66): a comparison of the unsigned satoshi count with
zero. -/
def amount_lt_zero (change : Nat) : Bool :=
  change < 0

/-- Unsigned-transaction construction inside `send_funding_transaction`
(rpc_helper.rs lines 35-86), after the RPC calls have succeeded: one input
per wallet UTXO with sequence `ENABLE_RBF_NO_LOCKTIME`, then
`amount_to_send = AMOUNT_PER_USER * POOL_USERS + fee` and
`change = total_input - amount_to_send`. The Rust `Amount` subtraction is
`checked_sub(..).expect(..)`, which panics on underflow, modelled as the
first error; the subsequent `change < Amount::ZERO` guard panics with
"Not enough input to cover outputs and fee", modelled as the second error.
The first output pays `amount_to_send` to the first change address and the
second pays `change` to the second change address, exactly as in the
source. -/
def send_funding_build (cfg : Config) (changeAddr1 changeAddr2 : Nat)
    (utxos : List Utxo) (fee : Nat) : Except String Transaction :=
  if (utxos.map Utxo.amount).sum < pool_total cfg + fee then
    Except.error "Amount subtraction underflow"
  else if amount_lt_zero ((utxos.map Utxo.amount).sum - (pool_total cfg + fee)) then
    Except.error "Not enough input to cover outputs and fee"
  else
    Except.ok
      { version := cfg.txVersion
        lockTime := 0
        input := utxos.map fun u =>
          TxIn.mk (OutPoint.mk u.txid u.vout) ENABLE_RBF_NO_LOCKTIME
        output := [TxOut.mk (pool_total cfg + fee) changeAddr1,
                   TxOut.mk ((utxos.map Utxo.amount).sum - (pool_total cfg + fee))
                     changeAddr2] }

/-- RPC oracle for `send_funding_transaction`: each field is the reply of one
external call, `none` meaning the call failed (every such reply is consumed
through `unwrap` in the source). The fee-rate field is the satoshi value of
`estimate_smart_fee(1).fee_rate`; the `(x as f64 * 250.0) as u64` scaling is
modelled as exact multiplication by 250. -/
structure FundingRpc where
  changeAddr1 : Option Nat
  changeAddr2 : Option Nat
  unspent : Option (List Utxo)
  feeRate : Option Nat
  signOk : Bool
  broadcast : Option Nat
deriving Repr

/-- Function `send_funding_transaction` (rpc_helper.rs lines 21-100):
fetches two change addresses, the wallet UTXO set and a fee estimate (each
through `unwrap`, so a failed reply panics), builds the unsigned transaction,
signs it with the wallet (`unwrap`) and broadcasts it (`unwrap`). The Rust
return type is a bare `Txid`: no failure of this function is an error value.
Returns the built transaction together with the broadcast txid. -/
def send_funding_transaction (cfg : Config) (r : FundingRpc) :
    Outcome (Transaction × Nat) :=
  match r.changeAddr1 with
  | none => Outcome.fatal "get_raw_change_address unwrap"
  | some ca1 =>
    match r.changeAddr2 with
    | none => Outcome.fatal "get_raw_change_address unwrap 2"
    | some ca2 =>
      match r.unspent with
      | none => Outcome.fatal "list_unspent unwrap"
      | some utxos =>
        match r.feeRate with
        | none => Outcome.fatal "estimate_smart_fee unwrap"
        | some feeRate =>
          match send_funding_build cfg ca1 ca2 utxos (feeRate * 250) with
          | Except.error m => Outcome.fatal m
          | Except.ok tx =>
            if r.signOk then
              match r.broadcast with
              | none => Outcome.fatal "send_raw_transaction unwrap"
              | some txid => Outcome.ok (tx, txid)
            else Outcome.fatal "sign_raw_transaction_with_wallet unwrap"

/-- Unsigned-transaction construction inside `simulate_psbt_signing`
(rpc_helper.rs lines 112-144): locate, by `position`, the first output of the
previous transaction whose value is `AMOUNT_PER_USER * POOL_USERS` (the
`unwrap` on a missing position panics, modelled as `none`), then build a
transaction with that single outpoint as input (sequence
`ENABLE_RBF_NO_LOCKTIME`) and a single output paying the full pool value to
the pool address. The `fee_amount` argument is received and never used. -/
def simulate_psbt_build (cfg : Config) (previousTxid : Nat)
    (previousOutputs : List TxOut) (poolScript : Nat) (feeAmount : Nat) :
    Option Transaction :=
  match previousOutputs.findIdx? (fun o => o.value == pool_total cfg) with
  | none => none
  | some vout =>
    some
      { version := cfg.txVersion
        lockTime := 0
        input := [TxIn.mk (OutPoint.mk previousTxid vout) ENABLE_RBF_NO_LOCKTIME]
        output := [TxOut.mk (pool_total cfg) poolScript] }

/-- RPC oracle for `simulate_psbt_signing`: the outputs of the previous
transaction as returned by `get_raw_transaction` (`none` = call failed),
whether wallet signing succeeds, and the broadcast reply. -/
structure PsbtRpc where
  raw : Option (List TxOut)
  signOk : Bool
  broadcast : Option Nat
deriving Repr

/-- Function `simulate_psbt_signing` (rpc_helper.rs lines 102-158): looks up
the previous transaction (`unwrap`), builds the unsigned pool-funding
transaction, signs it (`unwrap`) and broadcasts it — the broadcast is the one
call whose failure is propagated with `?` as an error value instead of a
panic. Returns the broadcast txid. -/
def simulate_psbt_signing (cfg : Config) (previousTxid : Nat)
    (poolScript : Nat) (feeAmount : Nat) (r : PsbtRpc) : Outcome Nat :=
  match r.raw with
  | none => Outcome.fatal "get_raw_transaction unwrap"
  | some outs =>
    match simulate_psbt_build cfg previousTxid outs poolScript feeAmount with
    | none => Outcome.fatal "position unwrap"
    | some _tx =>
      if r.signOk then
        match r.broadcast with
        | none => Outcome.err "send_raw_transaction"
        | some txid => Outcome.ok txid
      else Outcome.fatal "sign_raw_transaction_with_wallet unwrap"

/-- Fields committed by the template hasher: version, lock time, input count,
the sequence numbers of the declared inputs, output count, the declared
outputs, and the index of the spending input. Modelled from the spec (§4.1,
the `pools`/`ctv_scripts` sources are not in the snapshot): the digest is
modelled as the tuple of committed fields itself — an injective image, which
realises the determinism invariant (equal fields, equal digest) exactly.
Note the previous outpoints of the inputs are not committed; only their
sequence numbers are. -/
structure TemplateFields where
  version : Int
  lockTime : Nat
  inputCount : Nat
  sequences : List Nat
  outputCount : Nat
  outputs : List TxOut
  inputIndex : Nat
deriving DecidableEq, Repr

/-- Modelled from the spec: the Template Commitment Hasher (§4.1) applied to
a concrete transaction and spending-input index — it reads exactly the shape
fields of the transaction, dropping the previous outpoints. -/
def ctv_commit (tx : Transaction) (inputIndex : Nat) : TemplateFields :=
  { version := tx.version
    lockTime := tx.lockTime
    inputCount := tx.input.length
    sequences := tx.input.map TxIn.sequence
    outputCount := tx.output.length
    outputs := tx.output
    inputIndex := inputIndex }

/-- Address environment for the spec-modelled pool tree: the per-participant
withdrawal scripts, the fee-anchor script, and the taproot script of the pool
node keyed by a given exit path. The taproot compilation itself
(`ctv_scripts` module) is not in the snapshot, so node addresses are an
abstract assignment from paths. -/
structure PoolParams where
  cfg : Config
  withdrawScript : Nat → Nat
  anchorScript : Nat
  poolScript : List Nat → Nat

/-- Modelled from the spec: the value of the pool output at a node reached
after `k` exits. The root (k = 0) holds `POOL_USERS * AMOUNT_PER_USER`; each
exit pays out one share and one anchor, so the continuation shrinks by
`AMOUNT_PER_USER + FEE_AMOUNT` per step (§8 example: 3S, then 2S - F). -/
def node_input (cfg : Config) (k : Nat) : Nat :=
  cfg.poolUsers * cfg.amountPerUser - k * (cfg.amountPerUser + cfg.feeAmount)

/-- Modelled from the spec: the remaining participant other than the exiter
at a terminal node (exactly two participants are not in the path). -/
def other_remaining (cfg : Config) (path : List Nat) (exiter : Nat) : Nat :=
  ((List.range cfg.poolUsers).filter
      (fun j => !(path.contains j) && j != exiter)).headD 0

/-- Modelled from the spec (§4.4/§4.5, `pools` module not in the snapshot):
the output list of the transaction committed for the node keyed by `path`
when `exiter` exits next. Intermediate nodes pay the exiter
`AMOUNT_PER_USER - FEE_AMOUNT`, the anchor `FEE_AMOUNT`, and the remainder
less the implicit transaction fee to the child node keyed `path ++ [exiter]`
(§8 example: S - F, F, 2S - F from an input of 3S). The terminal layer
(exactly two participants remaining) omits the continuation and pays both
remaining participants plus the anchor; the spec leaves the terminal split
open (§9), modelled here as the exiter taking a full share less fee and the
other participant the conserved remainder. -/
def exit_outputs (pp : PoolParams) (path : List Nat) (exiter : Nat) :
    List TxOut :=
  let cfg := pp.cfg
  let inVal := node_input cfg path.length
  if path.length + 2 == cfg.poolUsers then
    [TxOut.mk (cfg.amountPerUser - cfg.feeAmount) (pp.withdrawScript exiter),
     TxOut.mk (inVal - (cfg.amountPerUser - cfg.feeAmount) - 2 * cfg.feeAmount)
       (pp.withdrawScript (other_remaining cfg path exiter)),
     TxOut.mk cfg.feeAmount pp.anchorScript]
  else
    [TxOut.mk (cfg.amountPerUser - cfg.feeAmount) (pp.withdrawScript exiter),
     TxOut.mk cfg.feeAmount pp.anchorScript,
     TxOut.mk (inVal - cfg.amountPerUser - cfg.feeAmount)
       (pp.poolScript (path ++ [exiter]))]

/-- Modelled from the spec: the digest embedded in the Covenant Leaf built by
the Pool Tree Builder (§4.4/§4.2) for the node keyed `path` and next exiter
`exiter`. The leaf is built before any transaction exists, so it commits only
to shape fields: version `TX_VERSION`, lock time zero, one input with
sequence `ENABLE_RBF_NO_LOCKTIME`, spending-input index zero, and the output
list of the committed transaction. -/
def leaf_template (pp : PoolParams) (path : List Nat) (exiter : Nat) :
    TemplateFields :=
  { version := pp.cfg.txVersion
    lockTime := 0
    inputCount := 1
    sequences := [ENABLE_RBF_NO_LOCKTIME]
    outputCount := (exit_outputs pp path exiter).length
    outputs := exit_outputs pp path exiter
    inputIndex := 0 }

/-- Modelled from the spec: the spending transaction the Spend Path Resolver
(§4.5, `process_pool_spend` in the missing `pools` module) constructs at
settlement time for the node keyed `path` when `exiter` exits next — one
input spending the live pool outpoint with the committed sequence number, and
exactly the committed outputs. -/
def exit_tx (pp : PoolParams) (path : List Nat) (exiter : Nat)
    (prevOut : OutPoint) : Transaction :=
  { version := pp.cfg.txVersion
    lockTime := 0
    input := [TxIn.mk prevOut ENABLE_RBF_NO_LOCKTIME]
    output := exit_outputs pp path exiter }

/-- Example configuration for concrete evaluations: 3 users, 100000 sats per
user, 1000 sats fee, 546 sats dust, transaction version 3. -/
def cfg3 : Config :=
  { poolUsers := 3, amountPerUser := 100000, feeAmount := 1000
    dustAmount := 546, txVersion := 3 }

/-- Example pool parameters over `cfg3` with concrete script assignments. -/
def pp3 : PoolParams :=
  { cfg := cfg3
    withdrawScript := fun i => 100 + i
    anchorScript := 7
    poolScript := fun p => 1000 + p.sum * 10 + p.length }

/-- Example funding transaction: what `send_funding_build` produces over
`cfg3` from one 400000-sat UTXO with fee 0. -/
def funding_tx_example : Transaction :=
  { version := 3
    lockTime := 0
    input := [TxIn.mk (OutPoint.mk 5 0) ENABLE_RBF_NO_LOCKTIME]
    output := [TxOut.mk 300000 1, TxOut.mk 100000 2] }

/-- Example pool-funding transaction: what `simulate_psbt_build` produces
over `cfg3` from a previous transaction with a single 300000-sat output. -/
def psbt_tx_example : Transaction :=
  { version := 3
    lockTime := 0
    input := [TxIn.mk (OutPoint.mk 77 0) ENABLE_RBF_NO_LOCKTIME]
    output := [TxOut.mk 300000 9] }

/-- C2: a configuration with fewer than 3 participants or a per-user amount
at most fee + dust is rejected (by panic, with the source message) before any
pool node is built, and a configuration satisfying both preconditions passes
the checks and reaches tree construction. -/
theorem config_rejection_spec (cfg : Config)
    (buildLayers : Config → List (List (List Nat × Nat))) :
    (main_construct_pools cfg buildLayers = Outcome.ok (buildLayers cfg) ↔
      3 ≤ cfg.poolUsers ∧ cfg.feeAmount + cfg.dustAmount < cfg.amountPerUser) ∧
    (cfg.poolUsers < 3 →
      main_construct_pools cfg buildLayers =
        Outcome.fatal "Pool must have at least 3 users") ∧
    (3 ≤ cfg.poolUsers → cfg.amountPerUser ≤ cfg.feeAmount + cfg.dustAmount →
      main_construct_pools cfg buildLayers =
        Outcome.fatal
          "Amount per user must be more than the FEE_AMOUNT + DUST_AMOUNT const") := by
  unfold main_construct_pools validate_pool_config
  split_ifs with h1 h2 <;> refine ⟨?_, ?_, ?_⟩ <;> simp_all

/-- C2 witness: the checks fire on a concrete 2-user configuration. -/
theorem config_rejection_spec_witness :
    main_construct_pools
        { poolUsers := 2, amountPerUser := 100, feeAmount := 1
          dustAmount := 1, txVersion := 3 } (fun _ => []) =
      Outcome.fatal "Pool must have at least 3 users" :=
  (config_rejection_spec _ (fun _ => [])).2.1 (by decide)

/-- Helper for C3: unrolling the settlement fold over an index range. -/
theorem settlement_foldl_eq_chain (r : Nat → Nat → Nat) (f0 : Nat) (n : Nat) :
    (List.range n).foldl
        (fun acc i => (r i acc.1, acc.2 ++ [(i, acc.1)]))
        (f0, ([] : List (Nat × Nat))) =
      (chain_txid r f0 n, (List.range n).map fun k => (k, chain_txid r f0 k)) := by
  induction n with
  | zero => rfl
  | succ n ih =>
    rw [List.range_succ, List.foldl_append, ih, List.map_append]
    rfl

/-- C3: the settlement loop of `main` invokes the resolver once for each
participant index 0 through POOL_USERS - 2 in ascending order — exactly
POOL_USERS - 1 calls — each call consuming the txid produced by the previous
call (the first consuming the pool-funding txid), and the final txid is the
(POOL_USERS - 1)-fold chained application of the resolver. -/
theorem settlement_loop_spec (poolUsers : Nat) (r : Nat → Nat → Nat)
    (f0 : Nat) :
    settlement_loop poolUsers r f0 =
      (chain_txid r f0 (poolUsers - 1),
        (List.range (poolUsers - 1)).map fun k => (k, chain_txid r f0 k)) ∧
    (settlement_loop poolUsers r f0).2.length = poolUsers - 1 ∧
    (settlement_loop poolUsers r f0).2.map Prod.fst =
      List.range (poolUsers - 1) := by
  have h := settlement_foldl_eq_chain r f0 (poolUsers - 1)
  refine ⟨h, ?_, ?_⟩ <;> simp [settlement_loop, h, Function.comp_def]

/-- C7 counterexample: the root layer built in `main` holds exactly one
node, but its key is the singleton path [0], not the empty path. -/
theorem pool_root_layer_key_counterexample :
    (pool_root_layer 0).length = 1 ∧
    (pool_root_layer 0).map Prod.fst = [[0]] ∧
    ([0] : List Nat) ≠ ([] : List Nat) := by
  decide

/-- C7 amended: the root layer contains exactly one node, and its lookup
key is the length-one path [0] (matching the spec's length formula
N - 1 - d at depth d = N - 2), not the empty path. -/
theorem pool_root_layer_single_node (spendInfo : Nat) :
    (pool_root_layer spendInfo).length = 1 ∧
    (pool_root_layer spendInfo).map Prod.fst = [[0]] ∧
    pool_root_layer spendInfo = [([0], spendInfo)] := by
  refine ⟨rfl, rfl, rfl⟩

/-- C1: for every reachable settlement state (a duplicate-free path of
in-range participants, strictly above the terminal layer bound) and every
admissible next exiter, the transaction the resolver constructs hashes under
the template commitment hasher to exactly the digest embedded in the covenant
leaf for that (path, exiter) — i.e. for every covenant leaf in the tree. The
only field varying between build time and settlement time is the spending
outpoint, which the commitment does not cover. -/
theorem commitment_soundness (pp : PoolParams) (path : List Nat)
    (exiter : Nat) (prevOut : OutPoint)
    (hnodup : path.Nodup) (hmem : ∀ j ∈ path, j < pp.cfg.poolUsers)
    (hlen : path.length ≤ pp.cfg.poolUsers - 2)
    (hex : exiter < pp.cfg.poolUsers) (hfresh : exiter ∉ path) :
    ctv_commit (exit_tx pp path exiter prevOut) 0 =
      leaf_template pp path exiter := by
  rfl

/-- C1 witness: the first exit from the root of the example 3-user pool. -/
theorem commitment_soundness_witness :
    ctv_commit (exit_tx pp3 [] 0 (OutPoint.mk 99 0)) 0 =
      leaf_template pp3 [] 0 :=
  commitment_soundness pp3 [] 0 (OutPoint.mk 99 0) (by simp) (by simp)
    (by decide) (by decide) (by simp)

/-- C5 counterexample: `main` hands `create_entry_pool_withdraw_hashes` the
value `AMOUNT_PER_USER * (POOL_USERS - 1)` with no fee deducted: at the
concrete configuration with S = 100000 and F = 1000 the argument is 200000,
not 200000 - 1000. -/
theorem entry_pool_amount_arg_counterexample :
    entry_pool_amount_arg cfg3 = 200000 ∧
    entry_pool_amount_arg cfg3 ≠
      cfg3.amountPerUser * (cfg3.poolUsers - 1) - cfg3.feeAmount := by
  decide

/-- C5 amended: for N = 3 with S > F + dust, resolving the first exit from
the funded root pays the exiter S - F, the fee anchor F, and a continuation
of exactly 2S - F to the node keyed by the exiter's index; the value handed
to the entry-pool construction in `main` is (POOL_USERS - 1) * AMOUNT_PER_USER
= 2S, with the fee deduction happening inside the construction rather than at
the call site. -/
theorem entry_pool_first_exit (pp : PoolParams) (i : Nat) (prevOut : OutPoint)
    (h3 : pp.cfg.poolUsers = 3)
    (hS : pp.cfg.feeAmount + pp.cfg.dustAmount < pp.cfg.amountPerUser) :
    (exit_tx pp [] i prevOut).output =
      [TxOut.mk (pp.cfg.amountPerUser - pp.cfg.feeAmount) (pp.withdrawScript i),
       TxOut.mk pp.cfg.feeAmount pp.anchorScript,
       TxOut.mk (2 * pp.cfg.amountPerUser - pp.cfg.feeAmount)
         (pp.poolScript [i])] ∧
    entry_pool_amount_arg pp.cfg = 2 * pp.cfg.amountPerUser := by
  constructor
  · simp only [exit_tx, exit_outputs, node_input, h3, List.length_nil]
    norm_num
    omega
  · simp only [entry_pool_amount_arg, h3]
    omega

/-- C5 witness: the first exit of the example 3-user pool, S = 100000,
F = 1000: payouts 99000 / 1000 / 199000 and call-site argument 200000. -/
theorem entry_pool_first_exit_witness :
    (exit_tx pp3 [] 1 (OutPoint.mk 42 0)).output =
      [TxOut.mk (pp3.cfg.amountPerUser - pp3.cfg.feeAmount)
         (pp3.withdrawScript 1),
       TxOut.mk pp3.cfg.feeAmount pp3.anchorScript,
       TxOut.mk (2 * pp3.cfg.amountPerUser - pp3.cfg.feeAmount)
         (pp3.poolScript [1])] ∧
    entry_pool_amount_arg pp3.cfg = 2 * pp3.cfg.amountPerUser :=
  entry_pool_first_exit pp3 1 (OutPoint.mk 42 0) (by decide) (by decide)

/-- Helper for C8: the "Not enough input to cover outputs and fee" branch of
`send_funding_build` is unreachable: its guard compares an unsigned satoshi
count with zero. -/
theorem send_funding_build_guard_unreachable (cfg : Config) (ca1 ca2 : Nat)
    (utxos : List Utxo) (fee : Nat) :
    send_funding_build cfg ca1 ca2 utxos fee ≠
      Except.error "Not enough input to cover outputs and fee" := by
  unfold send_funding_build
  split_ifs with h1 h2
  · intro h
    exact absurd (Except.error.inj h) (by decide)
  · exact absurd h2 (by simp [amount_lt_zero])
  · intro h
    cases h

/-- C8: whenever the wallet UTXO total is below the pool total plus the
estimated fee, the unsigned `Amount` subtraction in `send_funding_transaction`
panics (underflow) before the `change < Amount::ZERO` guard runs; the guard
itself is false for every unsigned value, so the "Not enough input to cover
outputs and fee" branch is unreachable both in the construction and in the
whole function. -/
theorem send_funding_underflow_before_guard (cfg : Config) (ca1 ca2 : Nat)
    (utxos : List Utxo) (fee : Nat)
    (h : (utxos.map Utxo.amount).sum < pool_total cfg + fee) :
    send_funding_build cfg ca1 ca2 utxos fee =
      Except.error "Amount subtraction underflow" ∧
    (∀ c : Nat, amount_lt_zero c = false) ∧
    (∀ cfg2 ca1b ca2b utxos2 fee2,
      send_funding_build cfg2 ca1b ca2b utxos2 fee2 ≠
        Except.error "Not enough input to cover outputs and fee") ∧
    (∀ cfg2 r, send_funding_transaction cfg2 r ≠
      Outcome.fatal "Not enough input to cover outputs and fee") := by
  refine ⟨?_, ?_, ?_, ?_⟩
  · unfold send_funding_build
    rw [if_pos h]
  · intro c
    simp [amount_lt_zero]
  · intro cfg2 ca1b ca2b utxos2 fee2
    exact send_funding_build_guard_unreachable cfg2 ca1b ca2b utxos2 fee2
  · intro cfg2 r heq
    unfold send_funding_transaction at heq
    rcases r with ⟨ca1r, ca2r, usr, frr, sgr, bcr⟩
    cases ca1r <;> cases ca2r <;> cases usr <;> cases frr <;>
        simp only [] at heq <;>
      first
      | exact absurd (Outcome.fatal.inj heq) (by decide)
      | skip
    rename_i ca1v ca2v usv frv
    rcases hb : send_funding_build cfg2 ca1v ca2v usv (frv * 250) with m | tx
    · rw [hb] at heq
      simp only [] at heq
      rw [Outcome.fatal.inj heq] at hb
      exact send_funding_build_guard_unreachable _ _ _ _ _ hb
    · rw [hb] at heq
      cases sgr <;> simp only [Bool.false_eq_true, if_false, if_true] at heq
      · exact absurd (Outcome.fatal.inj heq) (by decide)
      · cases bcr <;> simp only [] at heq
        · exact absurd (Outcome.fatal.inj heq) (by decide)
        · cases heq

/-- C8 witness: a single 10-sat UTXO cannot cover the 300000-sat pool. -/
theorem send_funding_underflow_witness :
    send_funding_build cfg3 1 2 [Utxo.mk 5 0 10] 0 =
      Except.error "Amount subtraction underflow" :=
  (send_funding_underflow_before_guard cfg3 1 2 [Utxo.mk 5 0 10] 0
    (by decide)).1

/-- C4: whenever the previous transaction has an output worth
`AMOUNT_PER_USER * POOL_USERS`, `simulate_psbt_signing` locates that output's
index by value, and the transaction it builds and broadcasts spends exactly
that outpoint as its single input and pays the root pool address in a single
output. -/
theorem simulate_psbt_funds_pool (cfg : Config) (ptxid : Nat)
    (outs : List TxOut) (pscript feeAmt : Nat)
    (h : ∃ o ∈ outs, o.value = pool_total cfg) :
    outs.findIdx? (fun o => o.value == pool_total cfg) =
      some (outs.findIdx (fun o => o.value == pool_total cfg)) ∧
    (outs[outs.findIdx (fun o => o.value == pool_total cfg)]?).map
        TxOut.value = some (pool_total cfg) ∧
    simulate_psbt_build cfg ptxid outs pscript feeAmt = some
      { version := cfg.txVersion
        lockTime := 0
        input := [TxIn.mk
          (OutPoint.mk ptxid (outs.findIdx (fun o => o.value == pool_total cfg)))
          ENABLE_RBF_NO_LOCKTIME]
        output := [TxOut.mk (pool_total cfg) pscript] } := by
  obtain ⟨o, ho, hv⟩ := h
  have hfind : outs.findIdx? (fun x => x.value == pool_total cfg) =
      some (outs.findIdx (fun x => x.value == pool_total cfg)) :=
    List.findIdx?_eq_some_of_exists ⟨o, ho, by simp [hv]⟩
  refine ⟨hfind, ?_, ?_⟩
  · rcases List.findIdx?_eq_some_iff_getElem.mp hfind with ⟨hlt, hp, -⟩
    rw [List.getElem?_eq_getElem hlt]
    simpa using hp
  · unfold simulate_psbt_build
    rw [hfind]

/-- C4 witness: a previous transaction whose second output carries the pool
total 300000 is spent at index 1. -/
theorem simulate_psbt_funds_pool_witness :
    ([TxOut.mk 5 4, TxOut.mk 300000 4] : List TxOut).findIdx?
        (fun o => o.value == pool_total cfg3) =
      some (([TxOut.mk 5 4, TxOut.mk 300000 4] : List TxOut).findIdx
        (fun o => o.value == pool_total cfg3)) ∧
    (([TxOut.mk 5 4, TxOut.mk 300000 4] : List TxOut)[
        ([TxOut.mk 5 4, TxOut.mk 300000 4] : List TxOut).findIdx
          (fun o => o.value == pool_total cfg3)]?).map TxOut.value =
      some (pool_total cfg3) ∧
    simulate_psbt_build cfg3 77 [TxOut.mk 5 4, TxOut.mk 300000 4] 9 0 = some
      { version := cfg3.txVersion
        lockTime := 0
        input := [TxIn.mk
          (OutPoint.mk 77 (([TxOut.mk 5 4, TxOut.mk 300000 4] : List TxOut).findIdx
            (fun o => o.value == pool_total cfg3)))
          ENABLE_RBF_NO_LOCKTIME]
        output := [TxOut.mk (pool_total cfg3) 9] } :=
  simulate_psbt_funds_pool cfg3 77 [TxOut.mk 5 4, TxOut.mk 300000 4] 9 0
    (by decide)

/-- C6 counterexample: a rejected broadcast inside `send_funding_transaction`
is consumed by `unwrap` and terminates the process abruptly — the outcome is
a panic, not an explicit error value, so the external-collaborator failure
does not surface as a result value there. -/
theorem funding_broadcast_failure_panics :
    send_funding_transaction cfg3
        (FundingRpc.mk (some 11) (some 12) (some [Utxo.mk 1 0 400000])
          (some 1) true none) =
      Outcome.fatal "send_raw_transaction unwrap" := by
  decide

/-- C6 amended: only the broadcast in `simulate_psbt_signing` surfaces an
external failure as an explicit error value (leaving the settlement txid
unchanged, so the step may be retried); every external failure inside
`send_funding_transaction` — including a rejected broadcast — panics, and
`send_funding_transaction` never returns an error value at all. -/
theorem psbt_broadcast_failure_is_error (cfg : Config)
    (ptxid pscript feeAmt : Nat) (r : PsbtRpc) (outs : List TxOut)
    (tx : Transaction)
    (hraw : r.raw = some outs)
    (hbuild : simulate_psbt_build cfg ptxid outs pscript feeAmt = some tx)
    (hsign : r.signOk = true) (hb : r.broadcast = none) :
    simulate_psbt_signing cfg ptxid pscript feeAmt r =
      Outcome.err "send_raw_transaction" ∧
    (∀ rf m, send_funding_transaction cfg rf ≠ Outcome.err m) := by
  constructor
  · simp only [simulate_psbt_signing, hraw, hbuild, hsign, hb, if_true]
  · intro rf m heq
    rcases rf with ⟨ca1r, ca2r, usr, frr, sgr, bcr⟩
    unfold send_funding_transaction at heq
    dsimp only at heq
    cases ca1r with
    | none => exact Outcome.noConfusion heq
    | some ca1v =>
    cases ca2r with
    | none => exact Outcome.noConfusion heq
    | some ca2v =>
    cases usr with
    | none => exact Outcome.noConfusion heq
    | some usv =>
    cases frr with
    | none => exact Outcome.noConfusion heq
    | some frv =>
    dsimp only at heq
    rcases hbd : send_funding_build cfg ca1v ca2v usv (frv * 250) with s | tx2
    · rw [hbd] at heq
      exact Outcome.noConfusion heq
    · rw [hbd] at heq
      cases sgr with
      | false => exact Outcome.noConfusion heq
      | true =>
        cases bcr with
        | none => exact Outcome.noConfusion heq
        | some b => exact Outcome.noConfusion heq

/-- C6 witness: the broadcast rejection in `simulate_psbt_signing` over the
example configuration yields the propagated error outcome. -/
theorem psbt_broadcast_failure_witness :
    simulate_psbt_signing cfg3 50 9 0
        (PsbtRpc.mk (some [TxOut.mk 300000 9]) true none) =
      Outcome.err "send_raw_transaction" :=
  (psbt_broadcast_failure_is_error cfg3 50 9 0
    (PsbtRpc.mk (some [TxOut.mk 300000 9]) true none) [TxOut.mk 300000 9]
    { version := cfg3.txVersion
      lockTime := 0
      input := [TxIn.mk (OutPoint.mk 50 0) ENABLE_RBF_NO_LOCKTIME]
      output := [TxOut.mk (pool_total cfg3) 9] }
    rfl (by decide) rfl rfl).1

/-- C9: the unsigned transaction built by `simulate_psbt_signing` does not
depend on the `fee_amount` argument — two calls differing only in the fee
build identical transactions — and its single output carries exactly
`AMOUNT_PER_USER * POOL_USERS`, the very value of the input being spent, so
the pool-funding transaction allocates zero fee. -/
theorem simulate_psbt_fee_independent (cfg : Config) (ptxid : Nat)
    (outs : List TxOut) (pscript f1 f2 : Nat) :
    simulate_psbt_build cfg ptxid outs pscript f1 =
      simulate_psbt_build cfg ptxid outs pscript f2 ∧
    ∀ tx, simulate_psbt_build cfg ptxid outs pscript f1 = some tx →
      tx.output.map TxOut.value = [pool_total cfg] ∧
      tx.input = [TxIn.mk
        (OutPoint.mk ptxid (outs.findIdx (fun o => o.value == pool_total cfg)))
        ENABLE_RBF_NO_LOCKTIME] ∧
      (outs[outs.findIdx (fun o => o.value == pool_total cfg)]?).map
        TxOut.value = some (pool_total cfg) := by
  constructor
  · rfl
  · intro tx htx
    unfold simulate_psbt_build at htx
    rcases hfind : outs.findIdx? (fun o => o.value == pool_total cfg) with - | j
    · rw [hfind] at htx
      cases htx
    · rw [hfind] at htx
      obtain rfl := Option.some.inj htx
      have hj : j = outs.findIdx (fun o => o.value == pool_total cfg) := by
        have := List.findIdx?_eq_some_iff_findIdx_eq.mp hfind
        omega
      subst hj
      rcases List.findIdx?_eq_some_iff_getElem.mp hfind with ⟨hlt, hp, -⟩
      refine ⟨by simp, rfl, ?_⟩
      rw [List.getElem?_eq_getElem hlt]
      simpa using hp

/-- C9 witness: over the example configuration, fee arguments 0 and 5000
build the same transaction, whose output is the full 300000-sat pool value. -/
theorem simulate_psbt_fee_independent_witness :
    psbt_tx_example.output.map TxOut.value = [pool_total cfg3] :=
  ((simulate_psbt_fee_independent cfg3 77 [TxOut.mk 300000 9] 9 0 5000).2
    psbt_tx_example (by decide)).1

/-- C10: every transaction constructed in `rpc_helper` — the funding
transaction of `send_funding_transaction` and the pool-funding transaction of
`simulate_psbt_signing` — has version `TX_VERSION`, absolute lock time zero,
and every input carrying sequence `ENABLE_RBF_NO_LOCKTIME`. -/
theorem constructed_tx_shape (cfg : Config) (ca1 ca2 : Nat)
    (utxos : List Utxo) (fee : Nat) (ptxid : Nat) (outs : List TxOut)
    (pscript feeAmt : Nat) (tx1 tx2 : Transaction)
    (h1 : send_funding_build cfg ca1 ca2 utxos fee = Except.ok tx1)
    (h2 : simulate_psbt_build cfg ptxid outs pscript feeAmt = some tx2) :
    (tx1.version = cfg.txVersion ∧ tx1.lockTime = 0 ∧
      tx1.input.map TxIn.sequence =
        List.replicate tx1.input.length ENABLE_RBF_NO_LOCKTIME) ∧
    (tx2.version = cfg.txVersion ∧ tx2.lockTime = 0 ∧
      tx2.input.map TxIn.sequence =
        List.replicate tx2.input.length ENABLE_RBF_NO_LOCKTIME) := by
  constructor
  · unfold send_funding_build at h1
    split_ifs at h1 with hu
    cases Except.ok.inj h1
    refine ⟨rfl, rfl, ?_⟩
    simp [List.map_map, Function.comp_def, List.eq_replicate_iff]
  · unfold simulate_psbt_build at h2
    rcases hfind : outs.findIdx? (fun o => o.value == pool_total cfg)
        with - | j
    · rw [hfind] at h2
      cases h2
    · rw [hfind] at h2
      obtain rfl := Option.some.inj h2
      exact ⟨rfl, rfl, rfl⟩

/-- C10 witness: the two example transactions built over `cfg3` have the
fixed shape fields. -/
theorem constructed_tx_shape_witness :
    (funding_tx_example.version = cfg3.txVersion ∧
      funding_tx_example.lockTime = 0 ∧
      funding_tx_example.input.map TxIn.sequence =
        List.replicate funding_tx_example.input.length
          ENABLE_RBF_NO_LOCKTIME) ∧
    (psbt_tx_example.version = cfg3.txVersion ∧
      psbt_tx_example.lockTime = 0 ∧
      psbt_tx_example.input.map TxIn.sequence =
        List.replicate psbt_tx_example.input.length
          ENABLE_RBF_NO_LOCKTIME) :=
  constructed_tx_shape cfg3 1 2 [Utxo.mk 5 0 400000] 0 77 [TxOut.mk 300000 9]
    9 0 funding_tx_example psbt_tx_example (by rfl) (by rfl)

end CtvPool
